import Mathlib

/-!
Shallow embedding of the cep-temperature-system pipeline.

The system is two Go HTTP services:
* service-a (Upstream Gateway, `src/unnamed/part_001`): decodes the incoming
  body, validates the CEP with `isValidCEP`, and forwards the request to
  service-b, relaying its status and body.
* service-b (Downstream Orchestrator, `src/service-b/main.go`): decodes the
  body, resolves the city via `fetchCityFromCEP` (ViaCEP), resolves the
  temperature via `fetchTemperature` (WeatherAPI), and converts Celsius to
  Fahrenheit and Kelvin.

Modelling choices:
* `float64` temperatures are embedded as `ℚ`; the decimal literals of the
  source (1.8, 32, 273) are exact in both `float64` and `ℚ`.
* Each outbound HTTP call is abstracted by a "wire" value describing the
  environment's behaviour for that call: transport failure, or a response
  with a status code and a body.  The JSON bodies are modelled by a small
  JSON value type together with decoders that mirror Go `encoding/json`
  unmarshalling into the source's struct types (absent field ⇒ zero value,
  unknown fields ignored, later duplicate keys win, type mismatch ⇒ error).
* Go errors are `Except String`, carrying the error message, because
  service-b's handler switches on the message text (`err.Error()`).
* `handleCEP` additionally reports, in the field `sentCEP`, which CEP (if
  any) was forwarded to service-b; every CEP that passes validation is an
  ASCII string, so Go's JSON round trip forwards it unchanged.
-/

/-- A JSON value, as decoded by Go `encoding/json`. -/
inductive Json where
  | null
  | bool (b : Bool)
  | num (q : ℚ)
  | str (s : String)
  | arr (elems : List Json)
  | obj (fields : List (String × Json))

/-- Field lookup in a JSON object.  Go `encoding/json` processes the keys in
order, so a later duplicate key overwrites an earlier one. -/
def lookupField (fields : List (String × Json)) (key : String) : Option Json :=
  fields.foldl (fun acc kv => if kv.1 = key then some kv.2 else acc) none

/-! ## service-a: the Postal Validator -/

/-- Success of Go `strconv.Atoi` on a short (< 19 characters) string: an
optional leading sign followed by at least one decimal digit.  (For inputs
of length 8 the `int64` range check of `Atoi` can never fire.) -/
def goAtoiOk (s : List Char) : Bool :=
  match s with
  | [] => false
  | c :: rest =>
      if c = '+' ∨ c = '-' then !rest.isEmpty && rest.all Char.isDigit
      else (c :: rest).all Char.isDigit

/-- Go `isValidCEP` (service-a): `len(cep) == 8 && strconv.Atoi(cep)`
succeeds.  Go `len` counts bytes, hence `utf8ByteSize`. -/
def isValidCEP (cep : String) : Bool :=
  if cep.utf8ByteSize ≠ 8 then false
  else goAtoiOk cep.data

/-! ## service-a: the Gateway handler -/

/-- Result of decoding the incoming request body into `CEPRequest`. A body
without a `cep` key decodes to `DecodeOutcome.ok ""` (Go zero value). -/
inductive DecodeOutcome where
  | fail (msg : String)
  | ok (cep : String)
deriving DecidableEq

/-- Environment behaviour of the gateway's outbound call to service-b:
request construction failure, transport failure, body read failure, or a
completed response with status and body. -/
inductive CallResult where
  | createReqErr (msg : String)
  | doErr (msg : String)
  | readErr (status : Nat) (msg : String)
  | ok (status : Nat) (body : String)
deriving DecidableEq

/-- The gateway's observable outcome: HTTP status, response body, and which
CEP (if any) was forwarded to service-b (`none` = no outbound request was
issued). -/
structure GatewayResult where
  status : Nat
  body : String
  sentCEP : Option String
deriving DecidableEq

/-- Go `handleCEP` (service-a).  `http.Error` appends a newline to its
message.  `json.Marshal` of a `CEPRequest` cannot fail, so the marshal-error
branch of the source is unreachable and has no corresponding case here. -/
def handleCEP (reqBody : DecodeOutcome) (callB : CallResult) : GatewayResult :=
  match reqBody with
  | .fail _ => ⟨400, "invalid request body\n", none⟩
  | .ok cep =>
      if !isValidCEP cep then ⟨422, "invalid zipcode\n", none⟩
      else
        match callB with
        | .createReqErr _ => ⟨500, "internal server error\n", none⟩
        | .doErr _ => ⟨500, "failed to call service b\n", some cep⟩
        | .readErr _ _ => ⟨500, "internal server error\n", some cep⟩
        | .ok st body => ⟨st, body, some cep⟩

/-! ## service-b: the Geocoding Client -/

/-- Go struct `ViaCEPResponse`. -/
structure ViaCEPResponse where
  localidade : String
deriving DecidableEq

/-- Go `json.Unmarshal` of a JSON value into `ViaCEPResponse`: a missing or
null `localidade` leaves the zero value `""`; unknown fields are ignored; a
non-string value in `localidade`, or a non-object document, is an error. -/
def decodeViaCEPResponse (j : Json) : Except String ViaCEPResponse :=
  match j with
  | .null => .ok ⟨""⟩
  | .obj fields =>
      match lookupField fields "localidade" with
      | none => .ok ⟨""⟩
      | some .null => .ok ⟨""⟩
      | some (.str s) => .ok ⟨s⟩
      | some _ => .error "json: cannot unmarshal value into field Localidade of type string"
  | _ => .error "json: cannot unmarshal value into Go value of type main.ViaCEPResponse"

/-- Body phase of a completed ViaCEP response: `io.ReadAll` failure,
`json.Unmarshal` syntax failure, or a parsed JSON document. -/
inductive GeoBody where
  | readErr (msg : String)
  | jsonErr (msg : String)
  | json (j : Json)

/-- Environment behaviour of the ViaCEP call made by `fetchCityFromCEP`. -/
inductive GeoWire where
  | createReqErr (msg : String)
  | doErr (msg : String)
  | resp (status : Nat) (body : GeoBody)

/-- Go `fetchCityFromCEP` (service-b).  The URL built from `cep` is
abstracted into the wire, which describes the provider's reaction to that
URL.  `http.StatusBadRequest = 400`, `http.StatusNotFound = 404`. -/
def fetchCityFromCEP (cep : String) (wire : GeoWire) : Except String String :=
  match wire with
  | .createReqErr msg => .error msg
  | .doErr msg => .error msg
  | .resp status body =>
      if status = 400 then .error "invalid zipcode"
      else if status = 404 then .error "can not find zipcode"
      else
        match body with
        | .readErr msg => .error msg
        | .jsonErr msg => .error msg
        | .json j =>
            match decodeViaCEPResponse j with
            | .error msg => .error msg
            | .ok v =>
                if v.localidade = "" then .error "city not found"
                else .ok v.localidade

/-! ## service-b: the Weather Client -/

/-- Inner struct `Current` of Go `WeatherAPIResponse`. -/
structure WeatherCurrent where
  tempC : ℚ
deriving DecidableEq

/-- Inner struct `Location` of Go `WeatherAPIResponse`. -/
structure WeatherLocation where
  name : String
deriving DecidableEq

/-- Go struct `WeatherAPIResponse`. -/
structure WeatherAPIResponse where
  current : WeatherCurrent
  location : WeatherLocation
deriving DecidableEq

/-- Go JSON decoding of a value into `WeatherAPIResponse`: missing or null
`current`, `current.temp_c`, `location`, `location.name` leave the zero
values (`0`, `""`); unknown fields are ignored; type mismatches error. -/
def decodeWeatherAPIResponse (j : Json) : Except String WeatherAPIResponse :=
  match j with
  | .null => .ok ⟨⟨0⟩, ⟨""⟩⟩
  | .obj fields =>
      match
        (match lookupField fields "current" with
         | none => Except.ok (0 : ℚ)
         | some .null => Except.ok (0 : ℚ)
         | some (.obj cf) =>
             match lookupField cf "temp_c" with
             | none => Except.ok (0 : ℚ)
             | some .null => Except.ok (0 : ℚ)
             | some (.num q) => Except.ok q
             | some _ => Except.error "json: cannot unmarshal value into field TempC of type float64"
         | some _ => Except.error "json: cannot unmarshal value into field Current of type struct") with
      | .error msg => .error msg
      | .ok tempC =>
          match
            (match lookupField fields "location" with
             | none => Except.ok ""
             | some .null => Except.ok ""
             | some (.obj lf) =>
                 match lookupField lf "name" with
                 | none => Except.ok ""
                 | some .null => Except.ok ""
                 | some (.str s) => Except.ok s
                 | some _ => Except.error "json: cannot unmarshal value into field Name of type string"
             | some _ => Except.error "json: cannot unmarshal value into field Location of type struct") with
          | .error msg => .error msg
          | .ok name => .ok ⟨⟨tempC⟩, ⟨name⟩⟩
  | _ => .error "json: cannot unmarshal value into Go value of type main.WeatherAPIResponse"

/-- Environment behaviour of the WeatherAPI call made by `fetchTemperature`:
the completed-response case carries the raw body text (used verbatim in the
non-200 error message) and the result of JSON syntax parsing of that body. -/
inductive WeatherWire where
  | createReqErr (msg : String)
  | doErr (msg : String)
  | resp (status : Nat) (rawBody : String) (jsonBody : Except String Json)

/-- Go `fetchTemperature` (service-b).  The URL built from the query-escaped
`city` is abstracted into the wire.  `http.StatusOK = 200`.  A decoded
temperature equal to the sentinel `0` is rejected as
`"invalid temperature data"`. -/
def fetchTemperature (city : String) (wire : WeatherWire) : Except String ℚ :=
  match wire with
  | .createReqErr msg => .error ("failed to create request: " ++ msg)
  | .doErr msg => .error ("API request failed: " ++ msg)
  | .resp status rawBody jsonBody =>
      if status ≠ 200 then .error ("API error: " ++ rawBody)
      else
        match jsonBody with
        | .error msg => .error ("failed to decode response: " ++ msg)
        | .ok j =>
            match decodeWeatherAPIResponse j with
            | .error msg => .error ("failed to decode response: " ++ msg)
            | .ok w =>
                if w.current.tempC = 0 then .error "invalid temperature data"
                else .ok w.current.tempC

/-! ## service-b: the Orchestrator handler -/

/-- Go struct `TemperatureResponse` (the 200 body of service-b). -/
structure TemperatureResponse where
  city : String
  tempC : ℚ
  tempF : ℚ
  tempK : ℚ
deriving DecidableEq

/-- Body of a service-b response: an `http.Error` text or the JSON-encoded
`TemperatureResponse`. -/
inductive BBody where
  | errText (msg : String)
  | json (r : TemperatureResponse)
deriving DecidableEq

/-- A service-b response: status code and body. -/
structure BResponse where
  status : Nat
  body : BBody
deriving DecidableEq

/-- The environment of one service-b request: the behaviour of the ViaCEP
call and of the WeatherAPI call. -/
structure BEnv where
  geo : GeoWire
  weather : WeatherWire

/-- Go `handleTemperature` (service-b).  The geocoding error is dispatched
by a `switch` on the error message text; an unmatched message falls to the
default 500 branch. -/
def handleTemperature (reqBody : DecodeOutcome) (env : BEnv) : BResponse :=
  match reqBody with
  | .fail _ => ⟨400, .errText "invalid request body\n"⟩
  | .ok cep =>
      match fetchCityFromCEP cep env.geo with
      | .error e =>
          if e = "invalid zipcode" then ⟨422, .errText "invalid zipcode\n"⟩
          else if e = "city not found" then ⟨404, .errText "can not find zipcode\n"⟩
          else ⟨500, .errText "failed to fetch city\n"⟩
      | .ok city =>
          match fetchTemperature city env.weather with
          | .error _ => ⟨500, .errText "failed to fetch temperature\n"⟩
          | .ok tempC => ⟨200, .json ⟨city, tempC, tempC * 1.8 + 32, tempC + 273⟩⟩

/-! ## Claims -/

/-- C2: the claim says `isValidCEP` accepts exactly the strings of 8 decimal
digits.  The code checks the byte length and then `strconv.Atoi`, which also
accepts a leading sign: the 8-character input "+1234567" contains a
non-digit yet validates.  This theorem evaluates the validator at that
failing input. -/
theorem claim2_sign_accepted :
    isValidCEP "+1234567" = true ∧
    "+1234567".utf8ByteSize = 8 ∧
    "+1234567".data.all Char.isDigit = false := by decide

/-- C3: the claim says a string that is not exactly 8 ASCII digits never
reaches the Geocoding Client.  The gateway forwards "+1234567" (which is not
all digits) to service-b, whose handler passes the decoded CEP straight to
`fetchCityFromCEP`; so the invariant fails at that input. -/
theorem claim3_sign_reaches_geocoding :
    (handleCEP (DecodeOutcome.ok "+1234567") (CallResult.ok 200 "x")).sentCEP =
      some "+1234567" ∧
    "+1234567".data.all Char.isDigit = false := by decide

/-- C6: when the postal code fails the Postal Validator, the gateway
responds with status 422 and body "invalid zipcode" (plus the newline that
`http.Error` appends), and no outbound request to service-b is issued,
whatever the environment would have answered. -/
theorem claim6_validation_shortcircuit (cep : String) (callB : CallResult)
    (h : isValidCEP cep = false) :
    handleCEP (DecodeOutcome.ok cep) callB = ⟨422, "invalid zipcode\n", none⟩ := by
  simp [handleCEP, h]

/-- C6 witness: the spec scenario, postal code "123". -/
theorem claim6_witness :
    isValidCEP "123" = false ∧
    handleCEP (DecodeOutcome.ok "123") (CallResult.ok 200 "x") =
      ⟨422, "invalid zipcode\n", none⟩ :=
  ⟨by decide, claim6_validation_shortcircuit "123" (CallResult.ok 200 "x") (by decide)⟩

/-- C7: once validation passes, a completed outbound call is relayed
verbatim: the gateway's status equals service-b's status and its body equals
service-b's body, for every status and body. -/
theorem claim7_relay (cep : String) (st : Nat) (body : String)
    (h : isValidCEP cep = true) :
    handleCEP (DecodeOutcome.ok cep) (CallResult.ok st body) =
      ⟨st, body, some cep⟩ := by
  simp [handleCEP, h]

/-- C7 witness: a valid CEP with a 404 response from service-b relayed
unchanged. -/
theorem claim7_witness :
    isValidCEP "01001000" = true ∧
    handleCEP (DecodeOutcome.ok "01001000") (CallResult.ok 404 "can not find zipcode\n") =
      ⟨404, "can not find zipcode\n", some "01001000"⟩ :=
  ⟨by decide,
   claim7_relay "01001000" 404 "can not find zipcode\n" (by decide)⟩

/-- C9: for a weather-provider response with success status whose body
decodes, a temperature equal to exactly zero is classified as the
"invalid temperature data" error, and a non-zero temperature is returned
unchanged. -/
theorem claim9_sentinel_zero (city rawBody : String) (j : Json)
    (w : WeatherAPIResponse)
    (hdec : decodeWeatherAPIResponse j = Except.ok w) :
    (w.current.tempC = 0 →
      fetchTemperature city (WeatherWire.resp 200 rawBody (Except.ok j)) =
        Except.error "invalid temperature data") ∧
    (w.current.tempC ≠ 0 →
      fetchTemperature city (WeatherWire.resp 200 rawBody (Except.ok j)) =
        Except.ok w.current.tempC) := by
  constructor
  · intro h0
    simp [fetchTemperature, hdec, h0]
  · intro h0
    simp [fetchTemperature, hdec, h0]

/-- C9 witness: a body carrying temp_c = 7 is returned unchanged, and a body
carrying temp_c = 0 is classified as unavailable. -/
theorem claim9_witness :
    decodeWeatherAPIResponse (Json.obj [("current", Json.obj [("temp_c", Json.num 7)])]) =
      Except.ok ⟨⟨7⟩, ⟨""⟩⟩ ∧
    (7 : ℚ) ≠ 0 ∧
    fetchTemperature "Niteroi" (WeatherWire.resp 200 "x"
        (Except.ok (Json.obj [("current", Json.obj [("temp_c", Json.num 7)])]))) =
      Except.ok 7 ∧
    decodeWeatherAPIResponse (Json.obj [("current", Json.obj [("temp_c", Json.num 0)])]) =
      Except.ok ⟨⟨0⟩, ⟨""⟩⟩ ∧
    fetchTemperature "Niteroi" (WeatherWire.resp 200 "x"
        (Except.ok (Json.obj [("current", Json.obj [("temp_c", Json.num 0)])]))) =
      Except.error "invalid temperature data" :=
  ⟨rfl, by norm_num,
   (claim9_sentinel_zero "Niteroi" "x"
      (Json.obj [("current", Json.obj [("temp_c", Json.num 7)])]) ⟨⟨7⟩, ⟨""⟩⟩ rfl).2
     (by norm_num),
   rfl,
   (claim9_sentinel_zero "Niteroi" "x"
      (Json.obj [("current", Json.obj [("temp_c", Json.num 0)])]) ⟨⟨0⟩, ⟨""⟩⟩ rfl).1 rfl⟩

/-- C10: a success-status body that decodes but lacks `current.temp_c`
entirely (here the empty JSON object) decodes to the Go zero value 0 and is
classified by `fetchTemperature` exactly like an explicit 0°C reading: the
two bodies are indistinguishable at the function's interface. -/
theorem claim10_missing_field_is_zero :
    decodeWeatherAPIResponse (Json.obj []) = Except.ok ⟨⟨0⟩, ⟨""⟩⟩ ∧
    fetchTemperature "Recife" (WeatherWire.resp 200 "x" (Except.ok (Json.obj []))) =
      Except.error "invalid temperature data" ∧
    fetchTemperature "Recife" (WeatherWire.resp 200 "x" (Except.ok (Json.obj []))) =
      fetchTemperature "Recife" (WeatherWire.resp 200 "x"
        (Except.ok (Json.obj [("current", Json.obj [("temp_c", Json.num 0)])]))) :=
  ⟨rfl, rfl, rfl⟩

/-- C1 counterexample: when the geocoding provider answers 404
(the `PostalCodeNotFound` class), `fetchCityFromCEP` produces the error
message "can not find zipcode", which matches neither case of the handler's
switch, so the response status is 500 — not the 404 the claim states. -/
theorem claim1_ctrex :
    (handleTemperature (DecodeOutcome.ok "00000000")
        ⟨GeoWire.resp 404 (GeoBody.json (Json.obj [])), WeatherWire.doErr "x"⟩).status = 500 ∧
    (handleTemperature (DecodeOutcome.ok "00000000")
        ⟨GeoWire.resp 404 (GeoBody.json (Json.obj [])), WeatherWire.doErr "x"⟩).status ≠ 404 := by
  decide

/-- C1 amended: the orchestrator maps geocoding outcomes to statuses as
follows — provider bad-request (400, `InvalidPostalCode`) → 422; a
successful response with an empty city field (`CityNotResolved`) → 404;
provider not-found (404, `PostalCodeNotFound`) → 500; and any transport
error whose message is not one of the two switch-matched strings → 500. -/
theorem claim1_amended_mapping (cep : String) (w : WeatherWire) (st : Nat)
    (b : GeoBody) (j : Json) (v : ViaCEPResponse) (msg : String) :
    ((handleTemperature (DecodeOutcome.ok cep) ⟨GeoWire.resp 400 b, w⟩).status = 422) ∧
    (st ≠ 400 → st ≠ 404 → decodeViaCEPResponse j = Except.ok v → v.localidade = "" →
      (handleTemperature (DecodeOutcome.ok cep)
        ⟨GeoWire.resp st (GeoBody.json j), w⟩).status = 404) ∧
    ((handleTemperature (DecodeOutcome.ok cep) ⟨GeoWire.resp 404 b, w⟩).status = 500) ∧
    (msg ≠ "invalid zipcode" → msg ≠ "city not found" →
      (handleTemperature (DecodeOutcome.ok cep) ⟨GeoWire.doErr msg, w⟩).status = 500) := by
  refine ⟨rfl, ?_, rfl, ?_⟩
  · intro h1 h2 hdec hloc
    simp [handleTemperature, fetchCityFromCEP, h1, h2, hdec, hloc]
  · intro h1 h2
    simp [handleTemperature, fetchCityFromCEP, h1, h2]

/-- C1 witness: the empty-city case at a 200 provider response yields 404,
and a transport error ("connection refused") yields 500. -/
theorem claim1_amended_witness :
    (200 : Nat) ≠ 400 ∧ (200 : Nat) ≠ 404 ∧
    decodeViaCEPResponse (Json.obj []) = Except.ok ⟨""⟩ ∧
    (handleTemperature (DecodeOutcome.ok "01001000")
        ⟨GeoWire.resp 200 (GeoBody.json (Json.obj [])), WeatherWire.doErr "x"⟩).status = 404 ∧
    (handleTemperature (DecodeOutcome.ok "01001000")
        ⟨GeoWire.doErr "connection refused", WeatherWire.doErr "x"⟩).status = 500 :=
  ⟨by decide, by decide, rfl,
   (claim1_amended_mapping "01001000" (WeatherWire.doErr "x") 200 (GeoBody.readErr "")
      (Json.obj []) ⟨""⟩ "m").2.1 (by decide) (by decide) rfl rfl,
   (claim1_amended_mapping "01001000" (WeatherWire.doErr "x") 0 (GeoBody.readErr "")
      Json.null ⟨""⟩ "connection refused").2.2.2 (by decide) (by decide)⟩

/-- C4 counterexample: a request body that fails to decode is answered with
status 400 ("invalid request body"), not the 500 the claim states. -/
theorem claim4_ctrex :
    (handleCEP (DecodeOutcome.fail "unexpected EOF") (CallResult.ok 200 "x")).status = 400 ∧
    (handleCEP (DecodeOutcome.fail "unexpected EOF") (CallResult.ok 200 "x")).status ≠ 500 := by
  decide

/-- C4 amended: at the inbound interface the non-success statuses are 400
with body "invalid request body" when the body cannot be decoded, 422 when
validation fails, 500 when the outbound call to the orchestrator fails
locally, the orchestrator's status relayed unchanged when the call
completes — and the orchestrator itself only ever answers 200, 404, 422
or 500 on a decodable body. -/
theorem claim4_inbound_statuses (cep msg : String) (callB : CallResult) (env : BEnv) :
    ((handleCEP (DecodeOutcome.fail msg) callB).status = 400 ∧
     (handleCEP (DecodeOutcome.fail msg) callB).body = "invalid request body\n") ∧
    (isValidCEP cep = false → (handleCEP (DecodeOutcome.ok cep) callB).status = 422) ∧
    (∀ m, callB = CallResult.doErr m → isValidCEP cep = true →
      (handleCEP (DecodeOutcome.ok cep) callB).status = 500) ∧
    (∀ st b, callB = CallResult.ok st b → isValidCEP cep = true →
      (handleCEP (DecodeOutcome.ok cep) callB).status = st) ∧
    ((handleTemperature (DecodeOutcome.ok cep) env).status = 200 ∨
     (handleTemperature (DecodeOutcome.ok cep) env).status = 404 ∨
     (handleTemperature (DecodeOutcome.ok cep) env).status = 422 ∨
     (handleTemperature (DecodeOutcome.ok cep) env).status = 500) := by
  refine ⟨⟨rfl, rfl⟩, ?_, ?_, ?_, ?_⟩
  · intro h
    simp [handleCEP, h]
  · intro m hm h
    subst hm
    simp [handleCEP, h]
  · intro st b hb h
    subst hb
    simp [handleCEP, h]
  · cases hg : fetchCityFromCEP cep env.geo with
    | error e =>
        by_cases h1 : e = "invalid zipcode"
        · simp [handleTemperature, hg, h1]
        · by_cases h2 : e = "city not found"
          · simp [handleTemperature, hg, h1, h2]
          · simp [handleTemperature, hg, h1, h2]
    | ok city =>
        cases hw : fetchTemperature city env.weather with
        | error e => simp [handleTemperature, hg, hw]
        | ok t => simp [handleTemperature, hg, hw]

/-- C4 witness: a failing decode yields 400; the invalid CEP "123" yields
422; a valid CEP with a completed 404 call relays 404. -/
theorem claim4_witness :
    (handleCEP (DecodeOutcome.fail "unexpected end of JSON input")
        (CallResult.ok 200 "x")).status = 400 ∧
    (handleCEP (DecodeOutcome.ok "abc") (CallResult.ok 200 "x")).status = 422 ∧
    (handleCEP (DecodeOutcome.ok "04538133") (CallResult.ok 404 "y")).status = 404 :=
  ⟨(claim4_inbound_statuses "z" "unexpected end of JSON input" (CallResult.ok 200 "x")
      ⟨GeoWire.doErr "", WeatherWire.doErr ""⟩).1.1,
   (claim4_inbound_statuses "abc" "m" (CallResult.ok 200 "x")
      ⟨GeoWire.doErr "", WeatherWire.doErr ""⟩).2.1 (by decide),
   (claim4_inbound_statuses "04538133" "m" (CallResult.ok 404 "y")
      ⟨GeoWire.doErr "", WeatherWire.doErr ""⟩).2.2.2.1 404 "y" rfl (by decide)⟩

/-- C5: whenever geocoding and the weather lookup both succeed, the
orchestrator answers 200 with a `TemperatureResponse` whose fields satisfy
tempF = tempC × 1.8 + 32 and tempK = tempC + 273 (and in particular not
tempC + 273.15), whose Celsius field is the fetched temperature unchanged,
and whose city is the geocoded city. -/
theorem claim5_conversion (cep city : String) (tempC : ℚ) (env : BEnv)
    (hgeo : fetchCityFromCEP cep env.geo = Except.ok city)
    (hw : fetchTemperature city env.weather = Except.ok tempC) :
    ∃ r : TemperatureResponse,
      handleTemperature (DecodeOutcome.ok cep) env = ⟨200, BBody.json r⟩ ∧
      r.tempF = r.tempC * 1.8 + 32 ∧
      r.tempK = r.tempC + 273 ∧
      r.tempK ≠ r.tempC + 273.15 ∧
      r.tempC = tempC ∧
      r.city = city := by
  refine ⟨⟨city, tempC, tempC * 1.8 + 32, tempC + 273⟩, ?_, rfl, rfl, ?_, rfl, rfl⟩
  · simp [handleTemperature, hgeo, hw]
  · intro h
    have h2 : (273 : ℚ) = 273.15 := add_left_cancel h
    norm_num at h2

/-- C5 witness: a successful run at temperature 22°C. -/
theorem claim5_witness :
    fetchCityFromCEP "01001000"
      (GeoWire.resp 200 (GeoBody.json (Json.obj [("localidade", Json.str "Sao Paulo")]))) =
      Except.ok "Sao Paulo" ∧
    fetchTemperature "Sao Paulo"
      (WeatherWire.resp 200 "x"
        (Except.ok (Json.obj [("current", Json.obj [("temp_c", Json.num 22)])]))) =
      Except.ok 22 ∧
    (∃ r : TemperatureResponse,
      handleTemperature (DecodeOutcome.ok "01001000")
        ⟨GeoWire.resp 200 (GeoBody.json (Json.obj [("localidade", Json.str "Sao Paulo")])),
         WeatherWire.resp 200 "x"
           (Except.ok (Json.obj [("current", Json.obj [("temp_c", Json.num 22)])]))⟩ =
        ⟨200, BBody.json r⟩ ∧
      r.tempF = r.tempC * 1.8 + 32 ∧
      r.tempK = r.tempC + 273 ∧
      r.tempK ≠ r.tempC + 273.15 ∧
      r.tempC = 22 ∧
      r.city = "Sao Paulo") :=
  ⟨rfl, rfl,
   claim5_conversion "01001000" "Sao Paulo" 22
     ⟨GeoWire.resp 200 (GeoBody.json (Json.obj [("localidade", Json.str "Sao Paulo")])),
      WeatherWire.resp 200 "x"
        (Except.ok (Json.obj [("current", Json.obj [("temp_c", Json.num 22)])]))⟩
     rfl rfl⟩

/-- C8: if geocoding succeeds and the weather lookup fails with any error
(non-success provider status, sentinel zero, transport or decode failure),
the orchestrator answers 500 with "failed to fetch temperature" — never a
caller-attributable status. -/
theorem claim8_weather_error_500 (cep city e : String) (env : BEnv)
    (hgeo : fetchCityFromCEP cep env.geo = Except.ok city)
    (hw : fetchTemperature city env.weather = Except.error e) :
    handleTemperature (DecodeOutcome.ok cep) env =
      ⟨500, BBody.errText "failed to fetch temperature\n"⟩ := by
  simp [handleTemperature, hgeo, hw]

/-- C8 witness: geocoding resolves "Curitiba", the weather provider answers
503 with body "boom", and the orchestrator answers 500. -/
theorem claim8_witness :
    fetchCityFromCEP "80010000"
      (GeoWire.resp 200 (GeoBody.json (Json.obj [("localidade", Json.str "Curitiba")]))) =
      Except.ok "Curitiba" ∧
    fetchTemperature "Curitiba" (WeatherWire.resp 503 "boom" (Except.ok Json.null)) =
      Except.error "API error: boom" ∧
    handleTemperature (DecodeOutcome.ok "80010000")
      ⟨GeoWire.resp 200 (GeoBody.json (Json.obj [("localidade", Json.str "Curitiba")])),
       WeatherWire.resp 503 "boom" (Except.ok Json.null)⟩ =
      ⟨500, BBody.errText "failed to fetch temperature\n"⟩ :=
  ⟨rfl, rfl,
   claim8_weather_error_500 "80010000" "Curitiba" "API error: boom"
     ⟨GeoWire.resp 200 (GeoBody.json (Json.obj [("localidade", Json.str "Curitiba")])),
      WeatherWire.resp 503 "boom" (Except.ok Json.null)⟩
     rfl rfl⟩
